import Mathlib

/-!
Verification of the browser-automation agent (llm_translator.py,
interaction_agent.py, os_controller.py, browser_controller.py) by a shallow
embedding of its data flow into Lean.  Python dict values are modelled by
`PyVal`; dicts are association lists with string keys.  External effects
(the LLM call, screenshots, template matching, OCR, process teardown,
Playwright page operations) are modelled by explicit environment records
whose fields record the outcome each call would produce.
-/

set_option linter.unusedVariables false

/-- A Python value, as far as the agent's validation logic inspects it. -/
inductive PyVal where
  | str (s : String)
  | int (n : Int)
  | bool (b : Bool)
  | pyNone
  | list (xs : List PyVal)
  | dict (kvs : List (String × PyVal))

/-- Python `isinstance(params.get(k), str) and k in params`:
the parameter map holds a string at key `k`
(llm_translator.py lines 139-144: both `k not in params` and the
non-string case make the same check fail). -/
def strParam (params : List (String × PyVal)) (k : String) : Bool :=
  match params.lookup k with
  | some (PyVal.str _) => true
  | _ => false

/-- Python `params.get("direction") in ["up", "down"]`
(llm_translator.py line 145): only the string values compare equal. -/
def dirParam (params : List (String × PyVal)) : Bool :=
  match params.lookup "direction" with
  | some (PyVal.str s) => s = "up" || s = "down"
  | _ => false

/-- Validation of the LLM response performed inside
`translate_command_to_action` (llm_translator.py lines 128-152).  Every
`raise ValueError` is caught by the enclosing `except` and turns the whole
call into `None`; success returns `action_data` itself. -/
def validateActionData (d : PyVal) : Option PyVal :=
  match d with
  | PyVal.dict kvs =>
    match kvs.lookup "action", kvs.lookup "parameters" with
    | some (PyVal.str action_name), some (PyVal.dict params) =>
      if action_name = "navigate" ∧ strParam params "url" = false then none
      else if (action_name = "click" ∨ action_name = "type")
          ∧ strParam params "selector" = false then none
      else if action_name = "type" ∧ strParam params "text" = false then none
      else if action_name = "scroll" ∧ dirParam params = false then none
      else if action_name ∉ (["navigate", "click", "type", "scroll"] : List String)
        then none
      else some d
    | _, _ => none
  | _ => none

/-- A well-shaped LLM response object `{"action": a, "parameters": ps}`. -/
def mkPlan (a : String) (ps : List (String × PyVal)) : PyVal :=
  PyVal.dict [("action", PyVal.str a), ("parameters", PyVal.dict ps)]

example : validateActionData (mkPlan "scroll" [("direction", PyVal.str "up")])
    = some (mkPlan "scroll" [("direction", PyVal.str "up")]) := rfl

example : validateActionData
    (mkPlan "press_key" [("key_name", PyVal.str "enter")]) = none := rfl

example : validateActionData
    (mkPlan "click" [("target_description", PyVal.str "login button")]) = none := rfl

example : validateActionData
    (mkPlan "click" [("selector", PyVal.str "#login-btn")])
    = some (mkPlan "click" [("selector", PyVal.str "#login-btn")]) := rfl

example : validateActionData (mkPlan "type" [("selector", PyVal.str "#q")]) = none := rfl

/-- The state dictionary flowing from `get_current_state` into translation.
Optional fields model keys that may be absent from the dict (the pixel
backend produces `visible_text`/`screenshot_base64` but no `elements`;
the structural backend produces `elements`). -/
structure ScreenState where
  url : String
  title : String
  elements : Option (List PyVal) := none
  visible_text : Option String := none
  screenshot_base64 : Option String := none

/-- State preparation inside `translate_command_to_action`
(llm_translator.py lines 103-107): copy the state and truncate the
`elements` list to 25 when it is longer; nothing else is touched, and in
particular `visible_text` is embedded into the prompt unchanged. -/
def translatorPromptState (st : ScreenState) : ScreenState :=
  { st with elements :=
      match st.elements with
      | some es => if es.length > 25 then some (es.take 25) else some es
      | none => none }

/-- State preparation inside `InteractionAgent.interact`
(interaction_agent.py lines 84-88), used only to build the
`messages_payload` that is logged: truncate a non-empty `visible_text`
longer than 2000 characters to 2000 characters plus `"..."`, and pop
`screenshot_base64`. -/
def agentLoggedPromptState (st : ScreenState) : ScreenState :=
  { st with
    visible_text :=
      match st.visible_text with
      | some t => if t ≠ "" ∧ t.length > 2000 then some (t.take 2000 ++ "...") else some t
      | none => none
    screenshot_base64 := none }

/-- The state argument `interact` actually passes to
`translate_command_to_action` (interaction_agent.py lines 125, 131, 140):
the unmodified `current_state`, not the logged `prompt_state`. -/
def interactTranslatorArgument (st : ScreenState) : ScreenState := st

/-- The state embedded in the LLM request that the translator sends when
invoked from `interact`: the translator's own preparation applied to the
argument `interact` passes it. -/
def interactLLMRequestState (st : ScreenState) : ScreenState :=
  translatorPromptState (interactTranslatorArgument st)

/-- A `visible_text` of 2001 characters, one more than the truncation bound. -/
def longText2001 : String := String.replicate 2001 'a'

/-- A pixel-backend state carrying `longText2001`. -/
def longTextState : ScreenState :=
  { url := "unknown - OS control", title := "unknown - OS control",
    visible_text := some longText2001, screenshot_base64 := some "IMGDATA" }

example : longText2001.length = 2001 := by
  simp [longText2001]

example : (interactLLMRequestState longTextState).visible_text = some longText2001 := rfl

/-- Python `params.get(k, default)`: the stored value when the key is
present (whatever its type), the default otherwise. -/
def pyGet (params : List (String × PyVal)) (k : String) (default : PyVal) : PyVal :=
  (params.lookup k).getD default

/-- The call `interact` makes into `OSController` for a given plan:
which controller method runs, with which arguments. -/
inductive OSCall where
  | navigate (params : List (String × PyVal))
  | click (target_description : PyVal)
  | typeInto (text : PyVal) (target_description : PyVal)
  | scroll (params : List (String × PyVal))
  | press_key (params : List (String × PyVal))
  | unknownAction (a : String)

/-- The action dispatch in `InteractionAgent.interact`
(interaction_agent.py lines 163-177).  `click` receives only
`params.get("target_description", "unknown target")`; `type` receives
`params.get("text", "")` and the same target default; the plan's
`selector` parameter is not read on either path. -/
def dispatchAction (action_name : String) (params : List (String × PyVal)) : OSCall :=
  if action_name = "navigate" then OSCall.navigate params
  else if action_name = "click" then
    OSCall.click (pyGet params "target_description" (PyVal.str "unknown target"))
  else if action_name = "type" then
    OSCall.typeInto (pyGet params "text" (PyVal.str ""))
      (pyGet params "target_description" (PyVal.str "unknown target"))
  else if action_name = "scroll" then OSCall.scroll params
  else if action_name = "press_key" then OSCall.press_key params
  else OSCall.unknownAction action_name

example :
    dispatchAction "click" [("selector", PyVal.str "#login-btn")]
      = OSCall.click (PyVal.str "unknown target") := rfl

/-- Result dictionaries `{"success": ..., "url": ..., "error": ...}`
returned by every executor operation. -/
structure ExecResult where
  success : Bool
  url : Option String := none
  error : Option String := none

/-- What `asyncio.get_event_loop()` yields inside `interact`
(interaction_agent.py lines 117-118): a running loop, a non-running loop,
or a `RuntimeError`. -/
inductive LoopProbe where
  | running
  | notRunning
  | unavailable

/-- Eventual behaviour of the `translate_command_to_action` coroutine:
a plan dictionary, `None`, or an exception. -/
inductive CallOutcome where
  | plan (p : PyVal)
  | noneResult
  | raises (msg : String)

/-- Environment of one translation attempt inside `interact`:
the event-loop probe result, the coroutine's eventual outcome, and the
wall-clock seconds until that outcome is available. -/
structure TranslateEnv where
  loopProbe : LoopProbe
  outcome : CallOutcome
  duration : Nat

/-- Outcome of the translation phase of `interact`. -/
inductive TransPhase where
  | gotPlan (p : PyVal)
  | noPlan
  | raisedOut (msg : String)

/-- The translation phase of `InteractionAgent.interact`
(interaction_agent.py lines 114-154).
* Running loop: `run_coroutine_threadsafe(...).result(timeout=180)` — a
  call still pending after 180 s raises a timeout error, and every raised
  error (timeout or transport) is caught, setting `action_plan = None`.
* No running loop: `asyncio.run(...)` with no timeout argument — the call
  is awaited for its full duration; exceptions are caught to `None`.
* `get_event_loop` raising `RuntimeError`: the handler at line 138
  formats the unbound name `e`, so a `NameError` escapes `interact`. -/
def translationPhase (env : TranslateEnv) : TransPhase :=
  match env.loopProbe with
  | LoopProbe.running =>
    if env.duration > 180 then TransPhase.noPlan
    else
      match env.outcome with
      | CallOutcome.plan p => TransPhase.gotPlan p
      | CallOutcome.noneResult => TransPhase.noPlan
      | CallOutcome.raises _ => TransPhase.noPlan
  | LoopProbe.notRunning =>
    match env.outcome with
    | CallOutcome.plan p => TransPhase.gotPlan p
    | CallOutcome.noneResult => TransPhase.noPlan
    | CallOutcome.raises _ => TransPhase.noPlan
  | LoopProbe.unavailable =>
    TransPhase.raisedOut "NameError: name e is not defined"

/-- How `interact` leaves the translation phase: `if not action_plan`
returns the failure dictionary without dispatching (interaction_agent.py
lines 152-154); otherwise the plan proceeds to dispatch. -/
inductive InteractOutcome where
  | returned (r : ExecResult)
  | dispatchesPlan (p : PyVal)
  | raisedOut (msg : String)

/-- `interact` after state extraction: translation then either the
uniform failure result or dispatch of the obtained plan. -/
def interactTranslation (env : TranslateEnv) : InteractOutcome :=
  match translationPhase env with
  | TransPhase.gotPlan p => InteractOutcome.dispatchesPlan p
  | TransPhase.noPlan =>
      InteractOutcome.returned
        { success := false, error := some "LLM OS translation failed" }
  | TransPhase.raisedOut m => InteractOutcome.raisedOut m

/-- A sample validated plan used in concrete instances. -/
def demoPlan : PyVal := mkPlan "scroll" [("direction", PyVal.str "down")]

example :
    interactTranslation
      { loopProbe := LoopProbe.running, outcome := CallOutcome.plan demoPlan,
        duration := 181 }
      = InteractOutcome.returned
          { success := false, error := some "LLM OS translation failed" } := rfl

example :
    interactTranslation
      { loopProbe := LoopProbe.notRunning, outcome := CallOutcome.plan demoPlan,
        duration := 7200 }
      = InteractOutcome.dispatchesPlan demoPlan := rfl

/-- Environment of one `AsyncBrowserController.click(selector)` call
(browser_controller.py lines 218-251): for each Playwright operation on
the page, `none` means it returns normally and `some msg` that it raises
with message `msg`.  `url` is `self.page.url` read on success. -/
structure ClickEnv where
  waitVisible : Option String
  hover : Option String
  scrollIntoView : Option String
  clickOp : Option String
  waitLoad : Option String
  waitAttached : Option String
  jsClick : Option String
  waitLoadAfterJs : Option String
  url : String

/-- One Playwright call as an exception-or-unit step. -/
def pwStep (o : Option String) : Except String Unit :=
  match o with
  | none => Except.ok ()
  | some msg => Except.error msg

/-- The primary interaction path of the structural click
(browser_controller.py lines 224-233): wait for visibility, hover,
scroll into view, click, wait for load state. -/
def primaryClickAttempt (env : ClickEnv) : Except String Unit := do
  pwStep env.waitVisible
  pwStep env.hover
  pwStep env.scrollIntoView
  pwStep env.clickOp
  pwStep env.waitLoad

/-- The JS fallback path (browser_controller.py lines 239-246): wait for
the *attached* state only — visibility is not consulted — then evaluate a
programmatic `el.click()` against the same selector, then wait for load. -/
def jsClickFallback (env : ClickEnv) : Except String Unit := do
  pwStep env.waitAttached
  pwStep env.jsClick
  pwStep env.waitLoadAfterJs

/-- `AsyncBrowserController.click`: primary path; on any raised error `e`,
try the JS fallback; if that raises `js_e` too, return failure with the
combined error string of line 251. -/
def browserClick (env : ClickEnv) : ExecResult :=
  match primaryClickAttempt env with
  | Except.ok _ => { success := true, url := some env.url }
  | Except.error e =>
    match jsClickFallback env with
    | Except.ok _ => { success := true, url := some env.url }
    | Except.error js_e =>
      { success := false,
        error := some ("Initial error: " ++ e ++ ". Fallback error: " ++ js_e) }

/-- A click environment whose primary path raises at the visibility wait
and whose fallback raises at the JS evaluation. -/
def doubleFailClickEnv : ClickEnv :=
  { waitVisible := some "Timeout 10000ms exceeded", hover := none,
    scrollIntoView := none, clickOp := none, waitLoad := none,
    waitAttached := none, jsClick := some "Element is not attached to the DOM",
    waitLoadAfterJs := none, url := "https://example.com" }

example :
    browserClick doubleFailClickEnv
      = { success := false,
          error := some ("Initial error: Timeout 10000ms exceeded. " ++
            "Fallback error: Element is not attached to the DOM") } := rfl

/-- `FIND_TIMEOUT` (os_controller.py line 34), in milliseconds. -/
def FIND_TIMEOUT_MS : Nat := 7000

/-- Outcome of one capture-and-match attempt inside `_find_target`
(os_controller.py lines 190-218): a bounding box from
`locateOnScreen`, `ImageNotFoundException` (retry), or any other
exception (logged, then `return None`). -/
inductive MatchAttempt where
  | found (left top width height : Nat)
  | notFound
  | raisesOther (msg : String)

/-- Center of a matched region (os_controller.py lines 208-210). -/
def boxCenter (left top width height : Nat) : Nat × Nat :=
  (left + width / 2, top + height / 2)

/-- The retry loop of `_find_target` (os_controller.py lines 189-223),
with time made explicit: `elapsed` is milliseconds since `start_time`,
`attempt i` the i-th capture-and-match outcome, `dur i` the capture and
matching time of iteration i, and 600 ms the fixed `time.sleep(0.6)`
between retries.  The loop guard is `elapsed < FIND_TIMEOUT_MS`; timeout
exit returns `None` together with the exit time.  `fuel` bounds the
recursion; every retry advances `elapsed` by at least 600, so 13 units of
fuel always outlast the 7000 ms window. -/
def findTargetGo (attempt : Nat → MatchAttempt) (dur : Nat → Nat) :
    Nat → Nat → Nat → Option (Nat × Nat) × Nat
  | 0, _, elapsed => (none, elapsed)
  | fuel + 1, i, elapsed =>
    if elapsed < FIND_TIMEOUT_MS then
      match attempt i with
      | MatchAttempt.found l t w h => (some (boxCenter l t w h), elapsed + dur i)
      | MatchAttempt.notFound => findTargetGo attempt dur fuel (i + 1) (elapsed + dur i + 600)
      | MatchAttempt.raisesOther _ => (none, elapsed + dur i)
    else (none, elapsed)

/-- `OSController._find_target` (os_controller.py lines 169-223).
`registered` is the `os.path.exists(image_path)` check for the template
(missing template: immediate `None`); `preSleep` is the time consumed
after `start_time` by the window-title check (the 0.3 s sleep of line 187
when the check succeeds).  Returns the result together with the elapsed
time at return. -/
def findTarget (registered : Bool) (preSleep : Nat)
    (attempt : Nat → MatchAttempt) (dur : Nat → Nat) : Option (Nat × Nat) × Nat :=
  if registered then findTargetGo attempt dur 13 0 preSleep else (none, 0)

example :
    findTarget true 0 (fun _ => MatchAttempt.notFound) (fun _ => 0)
      = (none, 7200) := rfl

/-- Python `needle in hay` on strings: splitting on the needle yields
more than one piece exactly when the needle occurs. -/
def strContains (hay needle : String) : Bool :=
  (hay.splitOn needle).length != 1

/-- Outcome of the OCR block inside `OSController.get_current_state`
(os_controller.py lines 443-459): recognized text, the `import
pytesseract` failing, or `image_to_string` raising with message `msg`. -/
inductive OcrOutcome where
  | ok (text : String)
  | importErr
  | raised (msg : String)

/-- Environment of one `OSController.get_current_state` call: the
screenshot capture either raises (message) or yields base64 data, and the
OCR block behaves per `OcrOutcome`. -/
structure PixelEnv where
  screenshot : Except String String
  ocr : OcrOutcome

/-- The pixel-backend state dictionary.  `visible_text` is a string in
every branch of the source; `screenshot_base64` is `None` only on the
capture-error path. -/
structure PixelState where
  url : String
  title : String
  visible_text : String
  screenshot_base64 : Option String

/-- The `visible_text` produced by the OCR block (os_controller.py
lines 443-459): the recognized text, the fixed skip message on
`ImportError`, and on other errors either the fixed Tesseract message
(when the error text contains the marker substring) or the formatted
error string. -/
def ocrVisibleText (o : OcrOutcome) : String :=
  match o with
  | OcrOutcome.ok t => t
  | OcrOutcome.importErr => "OCR skipped: pytesseract not installed."
  | OcrOutcome.raised msg =>
    if strContains msg "Tesseract is not installed or"
    then "OCR Error: Tesseract not found/configured."
    else "OCR Error: " ++ msg

/-- `OSController.get_current_state` (os_controller.py lines 413-465):
on capture failure the `Error` dictionary of line 463; otherwise the
`unknown - OS control` sentinels with the captured screenshot and the
OCR block's `visible_text`.  Total: no branch re-raises. -/
def osGetCurrentState (env : PixelEnv) : PixelState :=
  match env.screenshot with
  | Except.error e =>
    { url := "Error", title := "Error",
      visible_text := "Error capturing state: " ++ e, screenshot_base64 := none }
  | Except.ok shot =>
    { url := "unknown - OS control", title := "unknown - OS control",
      visible_text := ocrVisibleText env.ocr, screenshot_base64 := some shot }

example :
    osGetCurrentState { screenshot := Except.ok "IMG", ocr := OcrOutcome.importErr }
      = { url := "unknown - OS control", title := "unknown - OS control",
          visible_text := "OCR skipped: pytesseract not installed.",
          screenshot_base64 := some "IMG" } := rfl

/-- `OSController` state relevant to teardown: the launched browser
process handle, if any. -/
structure OSCtrlState where
  browser_process : Option Nat

/-- `InteractionAgent` state: its controller and the `_is_setup` flag. -/
structure AgentState where
  controller : OSCtrlState
  is_setup : Bool

/-- `OSController.teardown` (os_controller.py lines 99-117).
`terminateRaises` records whether `terminate`/`wait`/`kill` raise; the
surrounding `try/except/finally` logs any error, always clears
`browser_process`, and the method returns `{"success": True}` on every
path.  The returned `Bool` records whether teardown of the process
resource was attempted (a process handle was present). -/
def osTeardown (c : OSCtrlState) (terminateRaises : Bool) :
    OSCtrlState × ExecResult × Bool :=
  match c.browser_process with
  | some _ => ({ browser_process := none }, { success := true }, true)
  | none => (c, { success := true }, false)

/-- `InteractionAgent.close` (interaction_agent.py lines 42-50): when not
set up, log a warning and return without touching the controller;
otherwise run `teardown` and clear `_is_setup`.  The `Bool` records
whether a teardown of the session resource was performed. -/
def agentClose (a : AgentState) (terminateRaises : Bool) : AgentState × Bool :=
  if a.is_setup then
    let td := osTeardown a.controller terminateRaises
    ({ controller := td.1, is_setup := false }, td.2.2)
  else (a, false)

/-- The fixed, ordered selector-category list of
`AsyncBrowserController.get_interactive_elements`
(browser_controller.py lines 110-123). -/
def elementSelectors : List String :=
  ["button", "a[href]", "input:not([type=\x27hidden\x27])", "textarea", "select",
   "[role=\x27button\x27]", "[role=\x27link\x27]", "[role=\x27menuitem\x27]",
   "[role=\x27tab\x27]", "[role=\x27checkbox\x27]", "[role=\x27radio\x27]",
   "[contenteditable=\x27true\x27]"]

/-- `max_elements` (browser_controller.py line 125). -/
def max_elements : Nat := 30

/-- Outcome of processing one candidate element of a category
(browser_controller.py lines 171-184): the `is_visible` check or detail
extraction raising (caught, `continue`), the element not visible (skip),
`_extract_element_details` returning `None` (skip), or extracted
details `d`. -/
inductive CandOutcome (α : Type) where
  | raisesInner
  | notVisible
  | detailsNone
  | extracted (d : α)

/-- Outcome of one selector category (browser_controller.py
lines 166-187): the locator/count call raising (caught, `continue`
to the next category) or a list of candidate outcomes. -/
inductive SelOutcome (α : Type) where
  | fail (msg : String)
  | candidates (cs : List (CandOutcome α))

/-- The inner per-element loop: append extracted details and bump `count`
until `count >= max_elements` breaks the loop. -/
def candLoop {α : Type} : List (CandOutcome α) → Nat → List α → List α × Nat
  | [], count, acc => (acc, count)
  | c :: rest, count, acc =>
    if count ≥ max_elements then (acc, count)
    else
      match c with
      | CandOutcome.extracted d => candLoop rest (count + 1) (acc ++ [d])
      | _ => candLoop rest count acc

/-- The outer per-category loop (browser_controller.py lines 166-187):
break once the cap is reached, skip failing categories, otherwise scan
the category's candidates. -/
def selLoop {α : Type} (page : String → SelOutcome α) :
    List String → Nat → List α → List α
  | [], _, acc => acc
  | sel :: rest, count, acc =>
    if count ≥ max_elements then acc
    else
      match page sel with
      | SelOutcome.fail _ => selLoop page rest count acc
      | SelOutcome.candidates cs =>
        let r := candLoop cs count acc
        selLoop page rest r.2 r.1

/-- `AsyncBrowserController.get_interactive_elements`
(browser_controller.py lines 104-191).  The concurrent
`asyncio.gather` block of lines 141-162 appends nothing (its body is
`pass`); the sequential loop of lines 166-187 produces the returned
list. -/
def getInteractiveElements {α : Type} (page : String → SelOutcome α) : List α :=
  selLoop page elementSelectors 0 []

example :
    (getInteractiveElements
      (fun sel =>
        if sel = "button" then
          SelOutcome.candidates
            ((List.replicate 40 (CandOutcome.extracted 7)) : List (CandOutcome Nat))
        else SelOutcome.fail "boom")).length = 30 := by decide

/-- A structural state with 26 elements and a 2001-character
`visible_text`, exceeding both truncation bounds. -/
def bigState : ScreenState :=
  { url := "https://example.com", title := "Example",
    elements := some (List.replicate 26 (PyVal.int 0)),
    visible_text := some longText2001, screenshot_base64 := some "IMGDATA" }

/-- C1 counterexample: for a state whose `visible_text` has 2001
characters, the state embedded in the LLM request that the translator
sends when called from `interact` still carries the full 2001-character
`visible_text` — not a 2000-character truncation with a trailing marker.
The agent's truncation is applied only to the separate payload it builds
for logging. -/
theorem C1_counterexample :
    (interactLLMRequestState longTextState).visible_text = some longText2001 ∧
    2000 < longText2001.length := by
  refine ⟨rfl, ?_⟩
  simp [longText2001]

/-- C1 amended: the elements list embedded in the LLM request is
truncated to exactly 25 entries whenever the extracted set exceeds 25;
the 2000-character `visible_text` truncation with trailing `"..."` is
applied only to the payload `interact` prepares for logging, while the
state actually passed to the translator — and hence the `visible_text`
in the request it sends — is the full, untruncated `visible_text`. -/
theorem C1_truncation (st : ScreenState) (es : List PyVal) (t : String)
    (hes : st.elements = some es) (hlen : 25 < es.length)
    (ht : st.visible_text = some t) (hne : t ≠ "") (htlen : 2000 < t.length) :
    (translatorPromptState st).elements = some (es.take 25) ∧
    (es.take 25).length = 25 ∧
    (interactLLMRequestState st).visible_text = some t ∧
    (agentLoggedPromptState st).visible_text = some (t.take 2000 ++ "...") := by
  refine ⟨?_, ?_, ?_, ?_⟩
  · simp [translatorPromptState, hes, hlen]
  · simp only [List.length_take]
    omega
  · simpa [interactLLMRequestState, interactTranslatorArgument,
      translatorPromptState] using ht
  · simp [agentLoggedPromptState, ht, hne, htlen]

/-- Witness for `C1_truncation` at `bigState`. -/
theorem C1_truncation_witness :
    (translatorPromptState bigState).elements
        = some ((List.replicate 26 (PyVal.int 0)).take 25) ∧
    ((List.replicate 26 (PyVal.int 0) : List PyVal).take 25).length = 25 ∧
    (interactLLMRequestState bigState).visible_text = some longText2001 ∧
    (agentLoggedPromptState bigState).visible_text
        = some (longText2001.take 2000 ++ "...") :=
  C1_truncation bigState (List.replicate 26 (PyVal.int 0)) longText2001 rfl
    (by simp) rfl
    (by
      intro h
      have hl := congrArg String.length h
      simp [longText2001] at hl)
    (by simp [longText2001])

/-- C2 counterexample: a click plan carrying a string
`target_description` but no `selector` is rejected by the translator's
validation (llm_translator.py line 141 requires `selector`), contrary to
the claim that it passes in pixel-backend mode. -/
theorem C2_counterexample :
    validateActionData
      (mkPlan "click" [("target_description", PyVal.str "the login button")])
      = none := rfl

/-- C2 amended: validation of click and type plans requires a string
`selector` in every backend mode; a plan supplying only
`target_description` is rejected; a type plan missing a string `text` is
rejected; a click plan with a string `selector` (and a type plan with a
string `selector` and `text`) is accepted. -/
theorem C2_selector_required (ps : List (String × PyVal)) :
    (strParam ps "selector" = false →
      validateActionData (mkPlan "click" ps) = none ∧
      validateActionData (mkPlan "type" ps) = none) ∧
    (strParam ps "text" = false → validateActionData (mkPlan "type" ps) = none) ∧
    (strParam ps "selector" = true →
      validateActionData (mkPlan "click" ps) = some (mkPlan "click" ps)) ∧
    (strParam ps "selector" = true → strParam ps "text" = true →
      validateActionData (mkPlan "type" ps) = some (mkPlan "type" ps)) := by
  refine ⟨fun h => ⟨?_, ?_⟩, fun h => ?_, fun h => ?_, fun h h2 => ?_⟩ <;>
    simp_all [validateActionData, mkPlan, List.lookup]

/-- Witness for `C2_selector_required`: a target-description-only click
and type are rejected, a type without `text` is rejected, and plans with
`selector` (and `text`) are accepted. -/
theorem C2_selector_required_witness :
    (validateActionData
        (mkPlan "click" [("target_description", PyVal.str "login")]) = none ∧
     validateActionData
        (mkPlan "type" [("target_description", PyVal.str "login")]) = none) ∧
    validateActionData (mkPlan "type" [("selector", PyVal.str "#q")]) = none ∧
    validateActionData
        (mkPlan "click" [("selector", PyVal.str "#q"), ("text", PyVal.str "hi")])
      = some (mkPlan "click" [("selector", PyVal.str "#q"), ("text", PyVal.str "hi")]) ∧
    validateActionData
        (mkPlan "type" [("selector", PyVal.str "#q"), ("text", PyVal.str "hi")])
      = some (mkPlan "type" [("selector", PyVal.str "#q"), ("text", PyVal.str "hi")]) :=
  ⟨(C2_selector_required [("target_description", PyVal.str "login")]).1 rfl,
   (C2_selector_required [("selector", PyVal.str "#q")]).2.1 rfl,
   (C2_selector_required [("selector", PyVal.str "#q"), ("text", PyVal.str "hi")]).2.2.1 rfl,
   (C2_selector_required [("selector", PyVal.str "#q"), ("text", PyVal.str "hi")]).2.2.2 rfl rfl⟩

/-- C3 counterexample: a `press_key` plan with a string `key_name` is
rejected by the translator's validation — `press_key` is not in the
recognized list of llm_translator.py line 147, contrary to the claim
that the five kinds including `press_key` are accepted. -/
theorem C3_counterexample :
    validateActionData (mkPlan "press_key" [("key_name", PyVal.str "enter")])
      = none := rfl

/-- C3 amended: translation-boundary validation accepts exactly the four
kinds navigate, click, type, scroll when their required parameters are
present, and rejects every plan whose action lies outside these four —
including `press_key`, even with a string `key_name`, despite the
dispatcher in `interact` having a `press_key` branch. -/
theorem C3_four_kinds (a : String) (ps psn psc pst pss : List (String × PyVal))
    (u s t d : String)
    (ha : a ∉ (["navigate", "click", "type", "scroll"] : List String))
    (hu : psn.lookup "url" = some (PyVal.str u))
    (hs : psc.lookup "selector" = some (PyVal.str s))
    (hts : pst.lookup "selector" = some (PyVal.str s))
    (htt : pst.lookup "text" = some (PyVal.str t))
    (hd : d = "up" ∨ d = "down")
    (hdir : pss.lookup "direction" = some (PyVal.str d)) :
    validateActionData (mkPlan a ps) = none ∧
    validateActionData (mkPlan "navigate" psn) = some (mkPlan "navigate" psn) ∧
    validateActionData (mkPlan "click" psc) = some (mkPlan "click" psc) ∧
    validateActionData (mkPlan "type" pst) = some (mkPlan "type" pst) ∧
    validateActionData (mkPlan "scroll" pss) = some (mkPlan "scroll" pss) := by
  simp only [List.mem_cons, List.not_mem_nil, or_false, not_or] at ha
  obtain ⟨h1, h2, h3, h4⟩ := ha
  refine ⟨?_, ?_, ?_, ?_, ?_⟩ <;>
    simp [validateActionData, mkPlan, List.lookup, strParam, dirParam,
      h1, h2, h3, h4, hu, hs, hts, htt, hdir]
  rcases hd with h | h <;> simp [h]

/-- Witness for `C3_four_kinds`: `press_key` rejected, the four kinds
accepted with their required parameters. -/
theorem C3_four_kinds_witness :
    validateActionData (mkPlan "press_key" [("key_name", PyVal.str "tab")]) = none ∧
    validateActionData (mkPlan "navigate" [("url", PyVal.str "https://example.com")])
      = some (mkPlan "navigate" [("url", PyVal.str "https://example.com")]) ∧
    validateActionData (mkPlan "click" [("selector", PyVal.str "#login-btn")])
      = some (mkPlan "click" [("selector", PyVal.str "#login-btn")]) ∧
    validateActionData
        (mkPlan "type" [("selector", PyVal.str "#login-btn"), ("text", PyVal.str "hi")])
      = some (mkPlan "type" [("selector", PyVal.str "#login-btn"), ("text", PyVal.str "hi")]) ∧
    validateActionData (mkPlan "scroll" [("direction", PyVal.str "up")])
      = some (mkPlan "scroll" [("direction", PyVal.str "up")]) :=
  C3_four_kinds "press_key" [("key_name", PyVal.str "tab")]
    [("url", PyVal.str "https://example.com")]
    [("selector", PyVal.str "#login-btn")]
    [("selector", PyVal.str "#login-btn"), ("text", PyVal.str "hi")]
    [("direction", PyVal.str "up")]
    "https://example.com" "#login-btn" "hi" "up"
    (by decide) rfl rfl rfl rfl (Or.inl rfl) rfl



/-- C4: in pixel-backend dispatch, click and type consult only the
plan's `target_description` (and, for type, `text`); the validated
`selector` parameter is never read, a missing `target_description`
defaults to the literal string `unknown target`, and a missing `text`
defaults to the empty string. -/
theorem C4_dispatch_ignores_selector (ps1 ps2 : List (String × PyVal))
    (htd : ps1.lookup "target_description" = ps2.lookup "target_description")
    (htx : ps1.lookup "text" = ps2.lookup "text") :
    dispatchAction "click" ps1 = dispatchAction "click" ps2 ∧
    dispatchAction "type" ps1 = dispatchAction "type" ps2 ∧
    (ps1.lookup "target_description" = none →
      dispatchAction "click" ps1 = OSCall.click (PyVal.str "unknown target") ∧
      dispatchAction "type" ps1
        = OSCall.typeInto (pyGet ps1 "text" (PyVal.str "")) (PyVal.str "unknown target")) ∧
    (ps1.lookup "text" = none →
      dispatchAction "type" ps1
        = OSCall.typeInto (PyVal.str "")
            (pyGet ps1 "target_description" (PyVal.str "unknown target"))) := by
  refine ⟨?_, ?_, fun h => ⟨?_, ?_⟩, fun h => ?_⟩
  · simp [dispatchAction, pyGet, htd]
  · simp [dispatchAction, pyGet, htd, htx]
  · simp [dispatchAction, pyGet, h]
  · simp [dispatchAction, pyGet, h]
  · simp [dispatchAction, pyGet, h]

/-- Witness for `C4_dispatch_ignores_selector`: a plan whose parameters
hold only a `selector` dispatches identically to one with no parameters
at all, clicking the `unknown target` default. -/
theorem C4_dispatch_ignores_selector_witness :
    dispatchAction "click" [("selector", PyVal.str "#login-btn")]
      = dispatchAction "click" [] ∧
    dispatchAction "type" [("selector", PyVal.str "#login-btn")]
      = dispatchAction "type" [] ∧
    (([("selector", PyVal.str "#login-btn")] : List (String × PyVal)).lookup
        "target_description" = none →
      dispatchAction "click" [("selector", PyVal.str "#login-btn")]
        = OSCall.click (PyVal.str "unknown target") ∧
      dispatchAction "type" [("selector", PyVal.str "#login-btn")]
        = OSCall.typeInto
            (pyGet [("selector", PyVal.str "#login-btn")] "text" (PyVal.str ""))
            (PyVal.str "unknown target")) ∧
    (([("selector", PyVal.str "#login-btn")] : List (String × PyVal)).lookup
        "text" = none →
      dispatchAction "type" [("selector", PyVal.str "#login-btn")]
        = OSCall.typeInto (PyVal.str "")
            (pyGet [("selector", PyVal.str "#login-btn")] "target_description"
              (PyVal.str "unknown target"))) :=
  C4_dispatch_ignores_selector [("selector", PyVal.str "#login-btn")] [] rfl rfl

/-- C5: if the primary structural-click path raises with message `e`,
the JS fallback against the same selector is attempted: when it
succeeds, the click is reported successful; when it raises `js_e`, the
returned result has `success = false` and an error string referencing
both causes.  The fallback consults the attached-state wait, never the
visibility wait. -/
theorem C5_click_fallback (env : ClickEnv) (e : String)
    (hp : primaryClickAttempt env = Except.error e) :
    (jsClickFallback env = Except.ok () →
      browserClick env = { success := true, url := some env.url }) ∧
    (∀ js_e, jsClickFallback env = Except.error js_e →
      browserClick env =
        { success := false, url := none,
          error := some ("Initial error: " ++ e ++ ". Fallback error: " ++ js_e) }) ∧
    (∀ v, jsClickFallback { env with waitVisible := v } = jsClickFallback env) := by
  refine ⟨fun hf => ?_, fun js_e hf => ?_, fun v => rfl⟩ <;>
    simp [browserClick, hp, hf]

/-- Witness for `C5_click_fallback` at `doubleFailClickEnv`, where the
visibility wait and the JS click both raise. -/
theorem C5_click_fallback_witness :
    (jsClickFallback doubleFailClickEnv = Except.ok () →
      browserClick doubleFailClickEnv
        = { success := true, url := some doubleFailClickEnv.url }) ∧
    (∀ js_e, jsClickFallback doubleFailClickEnv = Except.error js_e →
      browserClick doubleFailClickEnv =
        { success := false, url := none,
          error := some ("Initial error: Timeout 10000ms exceeded" ++
            ". Fallback error: " ++ js_e) }) ∧
    (∀ v, jsClickFallback { doubleFailClickEnv with waitVisible := v }
      = jsClickFallback doubleFailClickEnv) :=
  C5_click_fallback doubleFailClickEnv "Timeout 10000ms exceeded" rfl

/-- Invariant of the `_find_target` retry loop under all-not-found
attempts: the result is `None`, and the exit time lands in the window
`[FIND_TIMEOUT_MS, FIND_TIMEOUT_MS + 600 + D)` provided enough fuel and
a start inside the window. -/
theorem findTargetGo_all_notFound (attempt : Nat → MatchAttempt) (dur : Nat → Nat)
    (D : Nat) (hatt : ∀ i, attempt i = MatchAttempt.notFound)
    (hdur : ∀ i, dur i ≤ D) :
    ∀ fuel i elapsed, FIND_TIMEOUT_MS ≤ elapsed + fuel * 600 →
      elapsed < FIND_TIMEOUT_MS + 600 + D →
      (findTargetGo attempt dur fuel i elapsed).1 = none ∧
      FIND_TIMEOUT_MS ≤ (findTargetGo attempt dur fuel i elapsed).2 ∧
      (findTargetGo attempt dur fuel i elapsed).2 < FIND_TIMEOUT_MS + 600 + D := by
  intro fuel
  induction fuel with
  | zero =>
    intro i elapsed h1 h2
    simpa [findTargetGo] using ⟨by simpa using h1, h2⟩
  | succ fuel ih =>
    intro i elapsed h1 h2
    by_cases hlt : elapsed < FIND_TIMEOUT_MS
    · have hstep := hdur i
      have h1' : FIND_TIMEOUT_MS ≤ elapsed + dur i + 600 + fuel * 600 := by
        have : elapsed + (fuel + 1) * 600 = elapsed + fuel * 600 + 600 := by ring
        omega
      have h2' : elapsed + dur i + 600 < FIND_TIMEOUT_MS + 600 + D := by
        simp only [FIND_TIMEOUT_MS] at hlt ⊢
        omega
      simpa [findTargetGo, hlt, hatt i] using ih (i + 1) (elapsed + dur i + 600) h1' h2'
    · have hge : FIND_TIMEOUT_MS ≤ elapsed := Nat.le_of_not_lt hlt
      simp [findTargetGo, hlt, hge, h2]

/-- C6: pixel target resolution against a registered template whose
every capture-and-match attempt reports not-found keeps retrying until
the 7-second window (`FIND_TIMEOUT_MS`) elapses, then returns the
recoverable `none` — never an exception (the loop body catches both the
not-found and the generic error case) — at a time no earlier than the
timeout and less than one iteration (600 ms sleep plus a capture bound
`D`) past it. -/
theorem C6_find_target_timeout (attempt : Nat → MatchAttempt) (dur : Nat → Nat)
    (preSleep D : Nat) (hatt : ∀ i, attempt i = MatchAttempt.notFound)
    (hdur : ∀ i, dur i ≤ D) (hpre : preSleep ≤ 300) :
    (findTarget true preSleep attempt dur).1 = none ∧
    FIND_TIMEOUT_MS ≤ (findTarget true preSleep attempt dur).2 ∧
    (findTarget true preSleep attempt dur).2 < FIND_TIMEOUT_MS + 600 + D := by
  have h := findTargetGo_all_notFound attempt dur D hatt hdur 13 0 preSleep
    (by simp only [FIND_TIMEOUT_MS]; omega) (by simp only [FIND_TIMEOUT_MS]; omega)
  simpa [findTarget] using h

/-- Witness for `C6_find_target_timeout`: instantaneous captures that
never match exit with `none` at exactly 7200 ms. -/
theorem C6_find_target_timeout_witness :
    (findTarget true 0 (fun _ => MatchAttempt.notFound) (fun _ => 0)).1 = none ∧
    FIND_TIMEOUT_MS ≤ (findTarget true 0 (fun _ => MatchAttempt.notFound) (fun _ => 0)).2 ∧
    (findTarget true 0 (fun _ => MatchAttempt.notFound) (fun _ => 0)).2
      < FIND_TIMEOUT_MS + 600 + 0 :=
  C6_find_target_timeout (fun _ => MatchAttempt.notFound) (fun _ => 0) 0 0
    (fun _ => rfl) (fun _ => Nat.le_refl 0) (by decide)

/-- C7: when the screenshot succeeds and OCR fails — the module missing
(`ImportError`) or recognition raising — `get_current_state` still
returns the well-formed state with both `unknown - OS control`
sentinels, the captured screenshot, and one of the fixed OCR error
strings as `visible_text`; `osGetCurrentState` is total, so the OCR
exception never propagates past the extraction boundary. -/
theorem C7_ocr_failure_degrades (env : PixelEnv) (shot : String)
    (hshot : env.screenshot = Except.ok shot)
    (hocr : env.ocr = OcrOutcome.importErr ∨ ∃ m, env.ocr = OcrOutcome.raised m) :
    (osGetCurrentState env).url = "unknown - OS control" ∧
    (osGetCurrentState env).title = "unknown - OS control" ∧
    (osGetCurrentState env).screenshot_base64 = some shot ∧
    ((osGetCurrentState env).visible_text
        = "OCR skipped: pytesseract not installed." ∨
     (osGetCurrentState env).visible_text
        = "OCR Error: Tesseract not found/configured." ∨
     ∃ m, env.ocr = OcrOutcome.raised m ∧
       (osGetCurrentState env).visible_text = "OCR Error: " ++ m) := by
  refine ⟨by simp [osGetCurrentState, hshot], by simp [osGetCurrentState, hshot],
    by simp [osGetCurrentState, hshot], ?_⟩
  rcases hocr with h | ⟨m, h⟩
  · exact Or.inl (by simp [osGetCurrentState, hshot, ocrVisibleText, h])
  · by_cases hc : strContains m "Tesseract is not installed or" = true
    · exact Or.inr (Or.inl (by simp [osGetCurrentState, hshot, ocrVisibleText, h, hc]))
    · exact Or.inr (Or.inr ⟨m, h,
        by simp [osGetCurrentState, hshot, ocrVisibleText, h, hc]⟩)

/-- A pixel environment with a successful capture and a raised OCR error. -/
def ocrFailEnv : PixelEnv :=
  { screenshot := Except.ok "IMG", ocr := OcrOutcome.raised "recognition failed" }

/-- Witness for `C7_ocr_failure_degrades` at `ocrFailEnv`. -/
theorem C7_ocr_failure_degrades_witness :
    (osGetCurrentState ocrFailEnv).url = "unknown - OS control" ∧
    (osGetCurrentState ocrFailEnv).title = "unknown - OS control" ∧
    (osGetCurrentState ocrFailEnv).screenshot_base64 = some "IMG" ∧
    ((osGetCurrentState ocrFailEnv).visible_text
        = "OCR skipped: pytesseract not installed." ∨
     (osGetCurrentState ocrFailEnv).visible_text
        = "OCR Error: Tesseract not found/configured." ∨
     ∃ m, ocrFailEnv.ocr = OcrOutcome.raised m ∧
       (osGetCurrentState ocrFailEnv).visible_text = "OCR Error: " ++ m) :=
  C7_ocr_failure_degrades ocrFailEnv "IMG" rfl (Or.inr ⟨"recognition failed", rfl⟩)

/-- C8: closing the agent twice never raises (both `close` and
`teardown` are total here because every failure in the source is caught
and logged), and the second call is a no-op: it reports no further
teardown of the session resource and leaves the agent state unchanged,
including after a partial or failed setup (`is_setup = false`, any
process-handle state). -/
theorem C8_close_idempotent (a : AgentState) (tf1 tf2 : Bool) :
    (agentClose (agentClose a tf1).1 tf2).2 = false ∧
    (agentClose (agentClose a tf1).1 tf2).1 = (agentClose a tf1).1 ∧
    (agentClose a tf1).1.is_setup = false := by
  rcases a with ⟨⟨bp⟩, setup⟩
  cases setup <;> cases bp <;> simp [agentClose, osTeardown]

/-- An environment where `interact` runs with no event loop and a
translation call that needs 7200 seconds before returning a plan. -/
def noLoopSlowEnv : TranslateEnv :=
  { loopProbe := LoopProbe.notRunning, outcome := CallOutcome.plan demoPlan,
    duration := 7200 }

/-- An environment on the running-loop path with a call pending past the
180-second ceiling. -/
def runningTimeoutEnv : TranslateEnv :=
  { loopProbe := LoopProbe.running, outcome := CallOutcome.plan demoPlan,
    duration := 181 }

/-- A transport fault on the running-loop path. -/
def runningFaultEnv : TranslateEnv :=
  { loopProbe := LoopProbe.running,
    outcome := CallOutcome.raises "APIConnectionError", duration := 2 }

/-- A transport fault on the no-running-loop path. -/
def noLoopFaultEnv : TranslateEnv :=
  { loopProbe := LoopProbe.notRunning,
    outcome := CallOutcome.raises "APIConnectionError", duration := 2 }

/-- C9 counterexample: on the execution path where no event loop is
running, the translation call is made through `asyncio.run` with no
timeout argument — a call that takes 7200 seconds is not cut off at
180 seconds but completes and its plan is dispatched.  The 180-second
ceiling therefore does not wrap the call in every execution path. -/
theorem C9_counterexample :
    interactTranslation noLoopSlowEnv = InteractOutcome.dispatchesPlan demoPlan := rfl

/-- C9 amended: the 180-second ceiling applies only on the execution
path where an event loop is already running
(`run_coroutine_threadsafe(...).result(timeout=180)`); there, a call
pending past 180 seconds and any raised transport fault both collapse to
"no plan produced" — `interact` returns the failure result and dispatches
nothing.  On the no-running-loop path (`asyncio.run`) a raised fault
still collapses to no plan, but a slow call is never timed out: its plan
is dispatched whatever its duration. -/
theorem C9_timeout_scope (env : TranslateEnv) :
    (env.loopProbe = LoopProbe.running → 180 < env.duration →
      interactTranslation env
        = InteractOutcome.returned
            { success := false, error := some "LLM OS translation failed" }) ∧
    (env.loopProbe = LoopProbe.running → ∀ m, env.outcome = CallOutcome.raises m →
      interactTranslation env
        = InteractOutcome.returned
            { success := false, error := some "LLM OS translation failed" }) ∧
    (env.loopProbe = LoopProbe.notRunning → ∀ m, env.outcome = CallOutcome.raises m →
      interactTranslation env
        = InteractOutcome.returned
            { success := false, error := some "LLM OS translation failed" }) ∧
    (env.loopProbe = LoopProbe.notRunning → ∀ p, env.outcome = CallOutcome.plan p →
      interactTranslation env = InteractOutcome.dispatchesPlan p) := by
  refine ⟨fun h1 h2 => ?_, fun h1 m hm => ?_, fun h1 m hm => ?_, fun h1 p hp => ?_⟩
  · simp [interactTranslation, translationPhase, h1, h2]
  · by_cases hd : env.duration > 180 <;>
      simp [interactTranslation, translationPhase, h1, hm, hd]
  · simp [interactTranslation, translationPhase, h1, hm]
  · simp [interactTranslation, translationPhase, h1, hp]

/-- Witness for `C9_timeout_scope` at the four concrete environments. -/
theorem C9_timeout_scope_witness :
    interactTranslation runningTimeoutEnv
      = InteractOutcome.returned
          { success := false, error := some "LLM OS translation failed" } ∧
    interactTranslation runningFaultEnv
      = InteractOutcome.returned
          { success := false, error := some "LLM OS translation failed" } ∧
    interactTranslation noLoopFaultEnv
      = InteractOutcome.returned
          { success := false, error := some "LLM OS translation failed" } ∧
    interactTranslation noLoopSlowEnv = InteractOutcome.dispatchesPlan demoPlan :=
  ⟨(C9_timeout_scope runningTimeoutEnv).1 rfl (by decide),
   (C9_timeout_scope runningFaultEnv).2.1 rfl "APIConnectionError" rfl,
   (C9_timeout_scope noLoopFaultEnv).2.2.1 rfl "APIConnectionError" rfl,
   (C9_timeout_scope noLoopSlowEnv).2.2.2 rfl demoPlan rfl⟩

/-- The inner candidate loop appends one element per counted unit:
started with `acc.length = count`, it ends with the list length equal to
the counter. -/
theorem candLoop_len {α : Type} :
    ∀ (cs : List (CandOutcome α)) (count : Nat) (acc : List α),
      acc.length = count →
      (candLoop cs count acc).1.length = (candLoop cs count acc).2 := by
  intro cs
  induction cs with
  | nil => intro count acc h; simpa [candLoop] using h
  | cons c rest ih =>
    intro count acc h
    by_cases hc : count ≥ max_elements
    · simpa [candLoop, hc] using h
    · cases c with
      | extracted d =>
        simpa [candLoop, hc] using ih (count + 1) (acc ++ [d]) (by simp [h])
      | raisesInner => simpa [candLoop, hc] using ih count acc h
      | notVisible => simpa [candLoop, hc] using ih count acc h
      | detailsNone => simpa [candLoop, hc] using ih count acc h

/-- The inner candidate loop never pushes the counter past the cap. -/
theorem candLoop_le {α : Type} :
    ∀ (cs : List (CandOutcome α)) (count : Nat) (acc : List α),
      count ≤ max_elements → (candLoop cs count acc).2 ≤ max_elements := by
  intro cs
  induction cs with
  | nil => intro count acc h; simpa [candLoop] using h
  | cons c rest ih =>
    intro count acc h
    by_cases hc : count ≥ max_elements
    · simpa [candLoop, hc] using h
    · cases c with
      | extracted d =>
        simpa [candLoop, hc] using ih (count + 1) (acc ++ [d]) (by omega)
      | raisesInner => simpa [candLoop, hc] using ih count acc h
      | notVisible => simpa [candLoop, hc] using ih count acc h
      | detailsNone => simpa [candLoop, hc] using ih count acc h

/-- The outer category loop keeps the result length within the cap. -/
theorem selLoop_le {α : Type} (page : String → SelOutcome α) :
    ∀ (sels : List String) (count : Nat) (acc : List α),
      acc.length = count → count ≤ max_elements →
      (selLoop page sels count acc).length ≤ max_elements := by
  intro sels
  induction sels with
  | nil => intro count acc h hle; simpa [selLoop, h] using hle
  | cons sel rest ih =>
    intro count acc h hle
    by_cases hc : count ≥ max_elements
    · simpa [selLoop, hc, h] using hle
    · cases hp : page sel with
      | fail msg => simpa [selLoop, hc, hp] using ih count acc h hle
      | candidates cs =>
        have h1 := candLoop_len cs count acc h
        have h2 := candLoop_le cs count acc hle
        simpa [selLoop, hc, hp] using
          ih (candLoop cs count acc).2 (candLoop cs count acc).1 h1 h2

/-- C10: structural extraction never yields more than 30 elements, for
every page and every outcome of the per-category and per-element scans —
failing categories and failing element extractions included, since
`SelOutcome.fail` and the non-`extracted` candidate outcomes cover
them. -/
theorem C10_element_cap {α : Type} (page : String → SelOutcome α) :
    (getInteractiveElements page).length ≤ 30 := by
  simpa [max_elements] using
    selLoop_le page elementSelectors 0 [] rfl (by decide)
